import Mathlib

/-!
Verification development for the mcp-nautobot repository.

The repository couples a Nautobot HTTP API client (rate limiter, request
dispatcher with a typed error taxonomy, tolerant record parsing, filter
mapping) with an MCP server dispatch layer (`server.py`).  The server module
is embedded directly from its source; the client module
(`mcp_nautobot_server/nautobot_client.py`) is not part of the available
sources (only its tests and callers are), so its operations are modelled
from the specification, as marked in the doc comments below.
-/

namespace McpNautobot

/-- JSON values, as decoded response bodies.  Numbers are modelled as
integers, which covers every value the client inspects (status codes,
limits, offsets). -/
inductive Json where
  | null : Json
  | bool (b : Bool) : Json
  | num (n : Int) : Json
  | str (s : String) : Json
  | arr (items : List Json) : Json
  | obj (fields : List (String × Json)) : Json
  deriving Repr, Inhabited

/-- Look up a top-level field of a JSON object; `none` for a missing key or
a non-object. -/
def Json.getField (j : Json) (key : String) : Option Json :=
  match j with
  | Json.obj fields => lookupField fields key
  | _ => none
where
  lookupField : List (String × Json) → String → Option Json
    | [], _ => none
    | (k, v) :: rest, key => if k = key then some v else lookupField rest key

/-- Look up a field and require it to be a string. -/
def Json.getStrField (j : Json) (key : String) : Option String :=
  match j.getField key with
  | some (Json.str s) => some s
  | _ => none

/-- Look up a field and keep it only when present and non-null. -/
def Json.getOptField (j : Json) (key : String) : Option Json :=
  match j.getField key with
  | some Json.null => none
  | some v => some v
  | none => none

/-- Error taxonomy of the client: Authentication, Connection and API
failures, the API kind carrying the originating HTTP status code.
Modelled from the spec: the `NautobotError` class hierarchy of the missing
`nautobot_client.py` (`NautobotAuthenticationError`,
`NautobotConnectionError`, `NautobotAPIError`). -/
inductive NautobotError where
  | authentication (msg : String) : NautobotError
  | connection (msg : String) : NautobotError
  | api (msg : String) (status_code : Nat) : NautobotError
  deriving Repr, DecidableEq

/-- Outcome of the underlying HTTP transport for one dispatched request:
either a transport-level failure (DNS, refused connection, socket timeout)
with its cause text, or an HTTP response with a status code and an optional
decoded JSON body (`none` when the body is empty or not decodable). -/
inductive HttpOutcome where
  | transportFailure (cause : String) : HttpOutcome
  | response (status : Nat) (body : Option Json) : HttpOutcome
  deriving Repr

/-- Connection-error message attached by the dispatcher; it carries the
underlying cause text. -/
def connectionMessage (cause : String) : String :=
  "Failed to connect to Nautobot: " ++ cause

/-- Modelled from the spec: the outcome mapping of `_make_request` in the
missing `nautobot_client.py`.  Transport failure maps to a Connection error
carrying the cause text; HTTP 401/403 maps to an Authentication error; any
other non-2xx status maps to an API error carrying the status code; a 2xx
response without a decodable JSON body maps to an API error (malformed
response); a 2xx response with a JSON body returns the decoded value. -/
def classifyOutcome (o : HttpOutcome) : Except NautobotError Json :=
  match o with
  | HttpOutcome.transportFailure cause =>
      Except.error (NautobotError.connection (connectionMessage cause))
  | HttpOutcome.response status body =>
      if status = 401 ∨ status = 403 then
        Except.error (NautobotError.authentication "Authentication failed: check API token and permissions")
      else if ¬ (200 ≤ status ∧ status < 300) then
        Except.error (NautobotError.api "API request failed" status)
      else
        match body with
        | some v => Except.ok v
        | none => Except.error (NautobotError.api "Invalid JSON in response" status)

/-- Validated IP address record.  Modelled from the spec: the `IPAddress`
model of the missing `nautobot_client.py` — identifier and CIDR-form
address string are mandatory, everything else optional. -/
structure IPAddress where
  id : String
  address : String
  status : Option Json
  role : Option Json
  tenant : Option Json
  vrf : Option Json
  dns_name : Option String
  description : Option String
  comments : Option String
  tags : List Json
  custom_fields : List (String × Json)
  created : Option String
  last_updated : Option String
  deriving Repr

/-- Validated network prefix record.  Modelled from the spec: the `Prefix`
model of the missing `nautobot_client.py` — identifier and CIDR prefix
string are mandatory, everything else optional.  The mandatory CIDR field
is called `prefix` in the source. -/
structure Prefix where
  id : String
  prefixStr : String
  status : Option Json
  site : Option Json
  role : Option Json
  tenant : Option Json
  vrf : Option Json
  vlan : Option Json
  is_pool : Bool
  description : Option String
  comments : Option String
  tags : List Json
  custom_fields : List (String × Json)
  created : Option String
  last_updated : Option String
  deriving Repr

/-- Extract the tag list of a raw entry, defaulting to empty. -/
def Json.getTags (j : Json) : List Json :=
  match j.getField "tags" with
  | some (Json.arr items) => items
  | _ => []

/-- Extract the custom-field map of a raw entry, defaulting to empty. -/
def Json.getCustomFields (j : Json) : List (String × Json) :=
  match j.getField "custom_fields" with
  | some (Json.obj fields) => fields
  | _ => []

/-- Modelled from the spec: parsing one raw JSON entry into an `IPAddress`
record in the missing `nautobot_client.py`.  The mandatory fields `id` and
`address` must be present as strings; a raw entry missing either is
rejected (returns `none`); optional fields are taken when present. -/
def IPAddress.fromJson? (j : Json) : Option IPAddress :=
  match j.getStrField "id", j.getStrField "address" with
  | some i, some a =>
      some { id := i
             address := a
             status := j.getOptField "status"
             role := j.getOptField "role"
             tenant := j.getOptField "tenant"
             vrf := j.getOptField "vrf"
             dns_name := j.getStrField "dns_name"
             description := j.getStrField "description"
             comments := j.getStrField "comments"
             tags := j.getTags
             custom_fields := j.getCustomFields
             created := j.getStrField "created"
             last_updated := j.getStrField "last_updated" }
  | _, _ => none

/-- Modelled from the spec: parsing one raw JSON entry into a `Prefix`
record in the missing `nautobot_client.py`.  The mandatory fields `id` and
`prefix` must be present as strings; a raw entry missing either is
rejected (returns `none`); optional fields are taken when present. -/
def Prefix.fromJson? (j : Json) : Option Prefix :=
  match j.getStrField "id", j.getStrField "prefix" with
  | some i, some p =>
      some { id := i
             prefixStr := p
             status := j.getOptField "status"
             site := j.getOptField "site"
             role := j.getOptField "role"
             tenant := j.getOptField "tenant"
             vrf := j.getOptField "vrf"
             vlan := j.getOptField "vlan"
             is_pool := (match j.getField "is_pool" with
                         | some (Json.bool b) => b
                         | _ => false)
             description := j.getStrField "description"
             comments := j.getStrField "comments"
             tags := j.getTags
             custom_fields := j.getCustomFields
             created := j.getStrField "created"
             last_updated := j.getStrField "last_updated" }
  | _, _ => none

/-- Mandatory-field validation for a raw IP-address entry: identifier and
address present as strings. -/
def hasMandatoryIPFields (j : Json) : Bool :=
  (j.getStrField "id").isSome && (j.getStrField "address").isSome

/-- Mandatory-field validation for a raw prefix entry: identifier and
prefix present as strings. -/
def hasMandatoryPrefixFields (j : Json) : Bool :=
  (j.getStrField "id").isSome && (j.getStrField "prefix").isSome

/-- Modelled from the spec: tolerant extraction of the `results` array from
a paginated envelope in the missing `nautobot_client.py`, falling back to
an empty sequence if absent; each element is parsed independently and
elements failing validation are dropped silently. -/
def parseResults {α : Type} (parse : Json → Option α) (resp : Json) : List α :=
  match resp.getField "results" with
  | some (Json.arr items) => items.filterMap parse
  | _ => []

/-- A query-parameter value: string filters or integer limit/offset. -/
inductive PVal where
  | s (v : String) : PVal
  | n (v : Nat) : PVal
  deriving Repr, DecidableEq

/-- Query parameters of one dispatched request. -/
abbrev Params : Type := List (String × PVal)

/-- Include a filter as a query parameter only when it has a concrete
value; a null/unset filter is omitted entirely. -/
def optParam (key : String) (v : Option String) : Params :=
  match v with
  | some s => [(key, PVal.s s)]
  | none => []

/-- Modelled from the spec: the query parameters built by
`get_ip_addresses` in the missing `nautobot_client.py`.  Semantic filter
names map to the API's expected parameter names — notably the `prefix`
filter is sent under the provider's `parent` key, never under a literal
`prefix` key; null/unset filters are omitted. -/
def ipAddressParams (address pfx status role tenant vrf : Option String)
    (limit offset : Nat) : Params :=
  [("limit", PVal.n limit), ("offset", PVal.n offset)]
    ++ optParam "address" address
    ++ optParam "parent" pfx
    ++ optParam "status" status
    ++ optParam "role" role
    ++ optParam "tenant" tenant
    ++ optParam "vrf" vrf

/-- Modelled from the spec: the query parameters built by `get_prefixes`
in the missing `nautobot_client.py`; null/unset filters are omitted. -/
def prefixParams (pfx status site role tenant vrf : Option String)
    (limit offset : Nat) : Params :=
  [("limit", PVal.n limit), ("offset", PVal.n offset)]
    ++ optParam "prefix" pfx
    ++ optParam "status" status
    ++ optParam "site" site
    ++ optParam "role" role
    ++ optParam "tenant" tenant
    ++ optParam "vrf" vrf

/-- The underlying request dispatcher as seen by a client operation: takes
the query parameters, yields either a taxonomy error or decoded JSON.
This stands for `_make_request` composed with the HTTP transport (the unit
the tests patch). -/
def Dispatch : Type := Params → Except NautobotError Json

/-- Modelled from the spec: `get_ip_addresses` of the missing
`nautobot_client.py`.  Builds the mapped filter parameters, dispatches a
GET, extracts the `results` array (empty if absent) and tolerantly parses
each entry, dropping invalid ones. -/
def get_ip_addresses (dispatch : Dispatch)
    (address pfx status role tenant vrf : Option String)
    (limit offset : Nat) : Except NautobotError (List IPAddress) :=
  match dispatch (ipAddressParams address pfx status role tenant vrf limit offset) with
  | Except.error e => Except.error e
  | Except.ok data => Except.ok (parseResults IPAddress.fromJson? data)

/-- Modelled from the spec: `get_prefixes` of the missing
`nautobot_client.py`; same envelope extraction and tolerant parsing as
`get_ip_addresses`. -/
def get_prefixes (dispatch : Dispatch)
    (pfx status site role tenant vrf : Option String)
    (limit offset : Nat) : Except NautobotError (List Prefix) :=
  match dispatch (prefixParams pfx status site role tenant vrf limit offset) with
  | Except.error e => Except.error e
  | Except.ok data => Except.ok (parseResults Prefix.fromJson? data)

/-- Modelled from the spec: `get_ip_address_by_id` of the missing
`nautobot_client.py`.  An API error with status 404 is translated to an
absent value (`none`), any other error propagates; a successful response
is parsed as a single record. -/
def get_ip_address_by_id (resp : Except NautobotError Json) :
    Except NautobotError (Option IPAddress) :=
  match resp with
  | Except.error (NautobotError.api msg code) =>
      if code = 404 then Except.ok none
      else Except.error (NautobotError.api msg code)
  | Except.error e => Except.error e
  | Except.ok data => Except.ok (IPAddress.fromJson? data)

/-- Modelled from the spec: `search_ip_addresses` of the missing
`nautobot_client.py` — dispatches with the generic text-search parameter
`q` and a limit, then tolerantly parses the results. -/
def search_ip_addresses (dispatch : Dispatch) (query : String) (limit : Nat) :
    Except NautobotError (List IPAddress) :=
  match dispatch [("q", PVal.s query), ("limit", PVal.n limit)] with
  | Except.error e => Except.error e
  | Except.ok data => Except.ok (parseResults IPAddress.fromJson? data)

/-- Modelled from the spec: `test_connection` of the missing
`nautobot_client.py`.  Probes a lightweight status endpoint; returns
`true` on success, `false` (not an error) on a Connection-classified
failure; Authentication and API errors propagate. -/
def test_connection (resp : Except NautobotError Json) :
    Except NautobotError Bool :=
  match resp with
  | Except.ok _ => Except.ok true
  | Except.error (NautobotError.connection _) => Except.ok false
  | Except.error e => Except.error e

/-! ## Rate limiter

Modelled from the spec: the `RateLimiter` of the missing
`nautobot_client.py`.  Time is discrete (`Nat` instants); `acquire` is
given the current instant and returns the wait it imposes together with
the new state, modelling the sequential (no concurrent interference)
execution in which the spec's re-check loop terminates after at most one
wait. -/

/-- Sliding-window rate limiter state: the configured maximum, the window
length, and the ordered sequence of recorded request timestamps. -/
structure RateLimiter where
  max_requests : Nat
  time_window : Nat
  requests : List Nat
  deriving Repr

/-- Timestamps still inside the sliding window at instant `now`: those
strictly newer than `now - window` (written additively so that truncated
subtraction cannot misclassify early timestamps). -/
def liveRequests (window now : Nat) (reqs : List Nat) : List Nat :=
  reqs.filter (fun t => now < t + window)

/-- Count of recorded timestamps inside the window at instant `now`. -/
def RateLimiter.liveCount (l : RateLimiter) (now : Nat) : Nat :=
  (liveRequests l.time_window now l.requests).length

/-- Modelled from the spec: `RateLimiter.acquire`.  Drop timestamps older
than `now - window`; if the remaining count is below the maximum, record
`now` and return immediately (wait 0); otherwise wait until the oldest
surviving timestamp ages out of the window, drop it, and record the
post-wait instant (the timestamp is recorded only after the check
passes). -/
def RateLimiter.acquire (l : RateLimiter) (now : Nat) : Nat × RateLimiter :=
  let live := liveRequests l.time_window now l.requests
  if live.length < l.max_requests then
    (0, { l with requests := live ++ [now] })
  else
    match live.head? with
    | none => (0, { l with requests := [now] })
    | some oldest =>
        let wake := oldest + l.time_window
        let live2 := liveRequests l.time_window wake live
        (wake - now, { l with requests := live2 ++ [wake] })

/-- Issue `k` successive `acquire` calls back-to-back, starting at instant
`now`; each call starts at the instant the previous one completed.
Returns the list of waits imposed and the final limiter state. -/
def acquireBurst (l : RateLimiter) (now : Nat) : Nat → List Nat × RateLimiter
  | 0 => ([], l)
  | Nat.succ k =>
      let step := l.acquire now
      let rest := acquireBurst step.2 (now + step.1) k
      (step.1 :: rest.1, rest.2)

/-! ## Server dispatch layer

Embedded from `src/mcp_nautobot_server/server.py`.  The client operations
the server delegates to are passed in as an explicit record of functions
(the tests patch them the same way); Python exceptions are modelled as an
explicit sum type threaded through `Except`. -/

/-- Python exceptions the server code distinguishes: the three
`NautobotError` subclasses, the `NautobotError` base class itself,
`ValidationError`, `ValueError`, and any other exception. -/
inductive PyExc where
  | nautobotAuthentication (msg : String) : PyExc
  | nautobotConnection (msg : String) : PyExc
  | nautobotAPI (msg : String) (status_code : Nat) : PyExc
  | nautobotBase (msg : String) : PyExc
  | validationError (msg : String) : PyExc
  | valueError (msg : String) : PyExc
  | otherExc (msg : String) : PyExc
  deriving Repr, DecidableEq

/-- The rendered message of an exception (Python `str(e)`). -/
def PyExc.message : PyExc → String
  | PyExc.nautobotAuthentication m => m
  | PyExc.nautobotConnection m => m
  | PyExc.nautobotAPI m _ => m
  | PyExc.nautobotBase m => m
  | PyExc.validationError m => m
  | PyExc.valueError m => m
  | PyExc.otherExc m => m

/-- A text content block returned to the MCP caller (`types.TextContent`;
the `type` discriminator is the constant `"text"` and is omitted). -/
structure TextContent where
  text : String
  deriving Repr, DecidableEq

/-- A tool-argument value: the schemas only use strings and integers. -/
inductive ArgVal where
  | s (v : String) : ArgVal
  | n (v : Nat) : ArgVal
  deriving Repr, DecidableEq

/-- The argument map of a tool call (`arguments or {}` in the source). -/
abbrev Args : Type := List (String × ArgVal)

/-- Python `args.get(key)` restricted to string values. -/
def Args.getStr (args : Args) (key : String) : Option String :=
  match args.find? (fun kv => kv.1 = key) with
  | some (_, ArgVal.s v) => some v
  | _ => none

/-- Python `args.get(key, default)` restricted to integer values. -/
def Args.getNatD (args : Args) (key : String) (dflt : Nat) : Nat :=
  match args.find? (fun kv => kv.1 = key) with
  | some (_, ArgVal.n v) => v
  | _ => dflt

/-- The argument extraction each `handle_call_tool` branch performs before
delegating to the client, embedded from `server.py` lines 553-711: the
filter arguments, the capped limits (`min(args.get("limit", 100), 1000)`
for list tools, `min(args.get("limit", 50), 500)` for search), the
required-argument checks, and the unknown-tool `ValueError`. -/
inductive ToolRequest where
  | getIPs (address pfx status role tenant vrf : Option String)
      (limit offset : Nat) : ToolRequest
  | getPrefixes (pfx status site role tenant vrf : Option String)
      (limit offset : Nat) : ToolRequest
  | getById (ip_id : String) : ToolRequest
  | search (query : String) (limit : Nat) : ToolRequest
  | testConn : ToolRequest
  deriving Repr, DecidableEq

/-- The five tool names `handle_list_tools` registers. -/
def knownTools : List String :=
  ["get_ip_addresses", "get_prefixes", "get_ip_address_by_id",
   "search_ip_addresses", "test_connection"]

/-- Embedded from `server.py` (`handle_call_tool`, argument extraction of
each branch).  A missing `ip_id`/`query` (absent or empty, Python
truthiness) raises `ValueError`; an unknown tool name raises
`ValueError("Unknown tool: ...")`; the limit arguments are capped. -/
def parseToolRequest (name : String) (args : Args) : Except PyExc ToolRequest :=
  if name = "get_ip_addresses" then
    Except.ok (ToolRequest.getIPs
      (args.getStr "address") (args.getStr "prefix") (args.getStr "status")
      (args.getStr "role") (args.getStr "tenant") (args.getStr "vrf")
      (min (args.getNatD "limit" 100) 1000)
      (args.getNatD "offset" 0))
  else if name = "get_prefixes" then
    Except.ok (ToolRequest.getPrefixes
      (args.getStr "prefix") (args.getStr "status") (args.getStr "site")
      (args.getStr "role") (args.getStr "tenant") (args.getStr "vrf")
      (min (args.getNatD "limit" 100) 1000)
      (args.getNatD "offset" 0))
  else if name = "get_ip_address_by_id" then
    match args.getStr "ip_id" with
    | some ip_id =>
        if ip_id = "" then Except.error (PyExc.valueError "ip_id is required")
        else Except.ok (ToolRequest.getById ip_id)
    | none => Except.error (PyExc.valueError "ip_id is required")
  else if name = "search_ip_addresses" then
    match args.getStr "query" with
    | some q =>
        if q = "" then Except.error (PyExc.valueError "query is required")
        else Except.ok (ToolRequest.search q (min (args.getNatD "limit" 50) 500))
    | none => Except.error (PyExc.valueError "query is required")
  else if name = "test_connection" then
    Except.ok ToolRequest.testConn
  else
    Except.error (PyExc.valueError ("Unknown tool: " ++ name))

/-- The effective limit a parsed tool request will delegate, when the tool
has one. -/
def ToolRequest.reqLimit : ToolRequest → Option Nat
  | ToolRequest.getIPs _ _ _ _ _ _ limit _ => some limit
  | ToolRequest.getPrefixes _ _ _ _ _ _ limit _ => some limit
  | ToolRequest.getById _ => none
  | ToolRequest.search _ limit => some limit
  | ToolRequest.testConn => none

/-- The client operation surface `handle_call_tool` delegates to, as a
record of functions; a call either returns a value or raises. -/
structure ClientOps where
  get_ip_addresses : Option String → Option String → Option String →
    Option String → Option String → Option String → Nat → Nat →
    Except PyExc (List IPAddress)
  get_prefixes : Option String → Option String → Option String →
    Option String → Option String → Option String → Nat → Nat →
    Except PyExc (List Prefix)
  get_ip_address_by_id : String → Except PyExc (Option IPAddress)
  search_ip_addresses : String → Nat → Except PyExc (List IPAddress)
  test_connection : Unit → Except PyExc Bool

/-- Rendering of a record list into the response text.  The Python source
interpolates the result dictionary into an f-string; the exact textual
form is abstracted here as a concatenation of the record addresses. -/
def renderIPList (ips : List IPAddress) : String :=
  String.intercalate ", " (ips.map (fun ip => ip.address))

/-- Rendering of a prefix list into the response text (as above). -/
def renderPrefixList (ps : List Prefix) : String :=
  String.intercalate ", " (ps.map (fun p => p.prefixStr))

/-- Embedded from `server.py` (`handle_call_tool`, per-branch body after
argument extraction): delegate to the client and format one text content
block per branch. -/
def runToolRequest (ops : ClientOps) : ToolRequest → Except PyExc (List TextContent)
  | ToolRequest.getIPs address pfx status role tenant vrf limit offset =>
      match ops.get_ip_addresses address pfx status role tenant vrf limit offset with
      | Except.error e => Except.error e
      | Except.ok ips =>
          Except.ok [⟨"Retrieved " ++ toString ips.length ++
            " IP addresses from Nautobot:\n\n```json\n" ++
            renderIPList ips ++ "\n```"⟩]
  | ToolRequest.getPrefixes pfx status site role tenant vrf limit offset =>
      match ops.get_prefixes pfx status site role tenant vrf limit offset with
      | Except.error e => Except.error e
      | Except.ok ps =>
          Except.ok [⟨"Retrieved " ++ toString ps.length ++
            " network prefixes from Nautobot:\n\n```json\n" ++
            renderPrefixList ps ++ "\n```"⟩]
  | ToolRequest.getById ip_id =>
      match ops.get_ip_address_by_id ip_id with
      | Except.error e => Except.error e
      | Except.ok none =>
          Except.ok [⟨"IP address with ID " ++ ip_id ++ " not found in Nautobot."⟩]
      | Except.ok (some ip) =>
          Except.ok [⟨"Retrieved IP address from Nautobot:\n\n```json\n" ++
            renderIPList [ip] ++ "\n```"⟩]
  | ToolRequest.search query limit =>
      match ops.search_ip_addresses query limit with
      | Except.error e => Except.error e
      | Except.ok ips =>
          Except.ok [⟨"Found " ++ toString ips.length ++
            " IP addresses matching " ++ query ++ ":\n\n```json\n" ++
            renderIPList ips ++ "\n```"⟩]
  | ToolRequest.testConn =>
      match ops.test_connection () with
      | Except.error e => Except.error e
      | Except.ok connected =>
          Except.ok [⟨"Nautobot API Connection Test: " ++
            (if connected then "✅ Connected" else "❌ Connection Failed")⟩]

/-- Embedded from `server.py` lines 713-751: the `except` clauses of
`handle_call_tool`, in source order — the three `NautobotError` subclasses
each get a dedicated remediation text, every other exception (including
`ValueError` and the `NautobotError` base class) falls to the generic
handler.  Each produces one error text content block. -/
def toolErrorContent : PyExc → TextContent
  | PyExc.nautobotAuthentication m =>
      ⟨"❌ Authentication failed: " ++ m ++
        "\n\nPlease check your Nautobot API token and permissions."⟩
  | PyExc.nautobotConnection m =>
      ⟨"❌ Connection error: " ++ m ++
        "\n\nPlease check your Nautobot URL and network connectivity."⟩
  | PyExc.nautobotAPI m _ =>
      ⟨"❌ API error: " ++ m ++
        "\n\nPlease check your request parameters and try again."⟩
  | e =>
      ⟨"❌ Unexpected error: " ++ e.message ++
        "\n\nPlease check the server logs for more details."⟩

/-- Embedded from `server.py` (`handle_call_tool`): obtain the client
(`get_nautobot_client` may itself raise — its outcome is the
`clientResult` argument), parse the arguments of the named tool, delegate,
and convert every escaping exception into a returned single-element error
content list. -/
def handle_call_tool (clientResult : Except PyExc ClientOps)
    (name : String) (args : Args) : List TextContent :=
  match (do
      let ops ← clientResult
      let req ← parseToolRequest name args
      runToolRequest ops req :
    Except PyExc (List TextContent)) with
  | Except.ok contents => contents
  | Except.error e => [toolErrorContent e]

/-! ## Client singleton (`get_nautobot_client`) -/

/-- An opaque client-instance identity, for stating that the cached
singleton is the very instance constructed on the first call. -/
abbrev Client : Type := Nat

/-- The environment the first `get_nautobot_client` call interacts with:
whether `NautobotConfig` construction fails validation, the instance
`NautobotClient(config)` yields, and the outcome of the
`test_connection` probe. -/
structure InitEnv where
  validationFailure : Option String
  client : Client
  testResult : Except PyExc Bool

/-- Embedded from `server.py` lines 41-78 (`get_nautobot_client`).  The
module-level `nautobot_client` global is the `cached` argument; the pair
returned is (call outcome, global after the call).  If the global is set
the cached instance is returned at once.  Otherwise the config is built
(a `ValidationError` is re-raised as a `NautobotError` and the global
stays unset), the client is constructed and assigned to the global, and
the connection is probed: a `false` probe raises
`NautobotConnectionError`, which the generic handler wraps into a
`NautobotError` — but the global keeps the constructed instance. -/
def get_nautobot_client (env : InitEnv) (cached : Option Client) :
    Except PyExc Client × Option Client :=
  match cached with
  | some c => (Except.ok c, some c)
  | none =>
      match env.validationFailure with
      | some msg =>
          (Except.error (PyExc.nautobotBase
            ("Invalid Nautobot configuration: " ++ msg)), none)
      | none =>
          let c := env.client
          match env.testResult with
          | Except.ok true => (Except.ok c, some c)
          | Except.ok false =>
              (Except.error (PyExc.nautobotBase
                "Failed to initialize Nautobot client: Failed to connect to Nautobot API"),
               some c)
          | Except.error e =>
              (Except.error (PyExc.nautobotBase
                ("Failed to initialize Nautobot client: " ++ e.message)),
               some c)

/-- A concrete client-operation record used to evaluate the server layer
on closed inputs. -/
def sampleOps : ClientOps where
  get_ip_addresses := fun _ _ _ _ _ _ _ _ => Except.ok []
  get_prefixes := fun _ _ _ _ _ _ _ _ => Except.ok []
  get_ip_address_by_id := fun _ => Except.ok none
  search_ip_addresses := fun _ _ => Except.ok []
  test_connection := fun _ => Except.ok true

/-! ## Helper lemmas -/

/-- Membership in an optional filter parameter forces the mapped key and a
concrete filter value. -/
theorem mem_optParam_iff (key : String) (v : PVal) (k : String) (o : Option String) :
    ((key, v) ∈ optParam k o) ↔ (key = k ∧ ∃ s, o = some s ∧ v = PVal.s s) := by
  cases o with
  | none => simp [optParam]
  | some s₀ =>
      simp only [optParam, List.mem_singleton, Prod.mk.injEq, PVal.s.injEq,
        Option.some.injEq]
      constructor
      · rintro ⟨hk, hv⟩
        exact ⟨hk, s₀, rfl, hv⟩
      · rintro ⟨hk, s₁, hs, hv⟩
        cases hs
        exact ⟨hk, hv⟩

/-- Parsing an IP-address entry succeeds exactly on mandatory-field
validation: identifier and address present as strings. -/
theorem isSome_ipFromJson (j : Json) :
    (IPAddress.fromJson? j).isSome = hasMandatoryIPFields j := by
  unfold IPAddress.fromJson? hasMandatoryIPFields
  cases h₁ : j.getStrField "id" <;> cases h₂ : j.getStrField "address" <;> simp

/-- Parsing a prefix entry succeeds exactly on mandatory-field validation:
identifier and prefix present as strings. -/
theorem isSome_prefixFromJson (j : Json) :
    (Prefix.fromJson? j).isSome = hasMandatoryPrefixFields j := by
  unfold Prefix.fromJson? hasMandatoryPrefixFields
  cases h₁ : j.getStrField "id" <;> cases h₂ : j.getStrField "prefix" <;> simp

/-- The length of a tolerant parse equals the number of entries whose
parse succeeds. -/
theorem length_filterMap_isSome {α β : Type} (f : α → Option β) (xs : List α) :
    (xs.filterMap f).length = xs.countP (fun a => (f a).isSome) := by
  induction xs with
  | nil => rfl
  | cons a t ih =>
      cases h : f a <;>
        simp [List.filterMap_cons, h, List.countP_cons, ih]

/-- A tolerant parse visits exactly the entries whose parse succeeds, in
their original order. -/
theorem filterMap_eq_filter_filterMap {α β : Type} (f : α → Option β) (xs : List α) :
    xs.filterMap f = (xs.filter (fun a => (f a).isSome)).filterMap f := by
  induction xs with
  | nil => rfl
  | cons a t ih =>
      cases h : f a <;> simp [List.filterMap_cons, List.filter_cons, h, ih]

/-! ## Claims -/

/-- C3: every dispatched request outcome is classified exhaustively:
a transport-level failure raises a Connection error carrying the
underlying cause text; an HTTP 401 or 403 response raises an
Authentication error; every other non-2xx status raises an API error
carrying the status code; a 2xx response with a JSON body returns the
decoded value; and every outcome lands in exactly this taxonomy. -/
theorem C3_outcome_classification :
    (∀ cause, classifyOutcome (HttpOutcome.transportFailure cause)
        = Except.error (NautobotError.connection (connectionMessage cause))
      ∧ ∃ p, connectionMessage cause = p ++ cause)
    ∧ (∀ status body, (status = 401 ∨ status = 403) →
        ∃ m, classifyOutcome (HttpOutcome.response status body)
          = Except.error (NautobotError.authentication m))
    ∧ (∀ status body, ¬(status = 401 ∨ status = 403) →
        ¬(200 ≤ status ∧ status < 300) →
        ∃ m, classifyOutcome (HttpOutcome.response status body)
          = Except.error (NautobotError.api m status))
    ∧ (∀ status v, 200 ≤ status ∧ status < 300 →
        classifyOutcome (HttpOutcome.response status (some v)) = Except.ok v)
    ∧ (∀ o, (∃ m, classifyOutcome o = Except.error (NautobotError.connection m))
        ∨ (∃ m, classifyOutcome o = Except.error (NautobotError.authentication m))
        ∨ (∃ m s, classifyOutcome o = Except.error (NautobotError.api m s))
        ∨ (∃ v, classifyOutcome o = Except.ok v)) := by
  refine ⟨fun cause => ⟨rfl, "Failed to connect to Nautobot: ", rfl⟩,
    fun status body h => ?_, fun status body h₁ h₂ => ?_,
    fun status v h => ?_, fun o => ?_⟩
  · exact ⟨"Authentication failed: check API token and permissions",
      by simp [classifyOutcome, h]⟩
  · exact ⟨"API request failed", by simp [classifyOutcome, h₁, h₂]⟩
  · have h₁ : ¬(status = 401 ∨ status = 403) := by omega
    simp [classifyOutcome, h₁, h]
  · cases o with
    | transportFailure cause => exact Or.inl ⟨_, rfl⟩
    | response status body =>
        by_cases h₁ : status = 401 ∨ status = 403
        · exact Or.inr (Or.inl
            ⟨"Authentication failed: check API token and permissions",
             by simp [classifyOutcome, h₁]⟩)
        · by_cases h₂ : 200 ≤ status ∧ status < 300
          · cases body with
            | none =>
                exact Or.inr (Or.inr (Or.inl ⟨"Invalid JSON in response", status,
                  by simp [classifyOutcome, h₁, h₂]⟩))
            | some v =>
                exact Or.inr (Or.inr (Or.inr ⟨v, by simp [classifyOutcome, h₁, h₂]⟩))
          · exact Or.inr (Or.inr (Or.inl ⟨"API request failed", status,
              by simp [classifyOutcome, h₁, h₂]⟩))

/-- Witness for C3: the classification evaluated at a 401 response, a 500
response, and a successful 200 response with a JSON body. -/
theorem C3_outcome_classification_witness :
    (∃ m, classifyOutcome (HttpOutcome.response 401 none)
      = Except.error (NautobotError.authentication m))
    ∧ (∃ m, classifyOutcome (HttpOutcome.response 500 none)
      = Except.error (NautobotError.api m 500))
    ∧ classifyOutcome (HttpOutcome.response 200 (some (Json.str "ok")))
      = Except.ok (Json.str "ok") :=
  ⟨C3_outcome_classification.2.1 401 none (Or.inl rfl),
   C3_outcome_classification.2.2.1 500 none (by decide) (by decide),
   C3_outcome_classification.2.2.2.1 200 (Json.str "ok") (by decide)⟩

/-- C4: `get_ip_address_by_id` yields an absent value (not an error)
exactly when the dispatch raised an API error with status 404; every
other error outcome propagates to the caller unchanged. -/
theorem C4_get_by_id_404_absent :
    (∀ msg, get_ip_address_by_id (Except.error (NautobotError.api msg 404))
      = Except.ok none)
    ∧ (∀ e, (∀ msg, e ≠ NautobotError.api msg 404) →
        get_ip_address_by_id (Except.error e) = Except.error e)
    ∧ (∀ e, get_ip_address_by_id (Except.error e) = Except.ok none →
        ∃ msg, e = NautobotError.api msg 404) := by
  refine ⟨fun msg => rfl, fun e h => ?_, fun e h => ?_⟩
  · cases e with
    | authentication m => rfl
    | connection m => rfl
    | api m code =>
        have hc : code ≠ 404 := fun hc => h m (by rw [hc])
        simp [get_ip_address_by_id, hc]
  · cases e with
    | authentication m => simp [get_ip_address_by_id] at h
    | connection m => simp [get_ip_address_by_id] at h
    | api m code =>
        by_cases hc : code = 404
        · exact ⟨m, by rw [hc]⟩
        · simp [get_ip_address_by_id, hc] at h

/-- Witness for C4: a 404 API error yields absent; a connection error and
a 500 API error propagate unchanged. -/
theorem C4_get_by_id_404_absent_witness :
    get_ip_address_by_id (Except.error (NautobotError.api "Not found" 404))
      = Except.ok none
    ∧ get_ip_address_by_id (Except.error (NautobotError.connection "down"))
      = Except.error (NautobotError.connection "down")
    ∧ get_ip_address_by_id (Except.error (NautobotError.api "boom" 500))
      = Except.error (NautobotError.api "boom" 500) :=
  ⟨C4_get_by_id_404_absent.1 "Not found",
   C4_get_by_id_404_absent.2.1 (NautobotError.connection "down")
     (fun msg h => NautobotError.noConfusion h),
   C4_get_by_id_404_absent.2.1 (NautobotError.api "boom" 500)
     (fun msg => by simp)⟩

/-- C6: `test_connection` returns `false` (without throwing) whenever the
dispatch raises a Connection error, returns `true` whenever the dispatch
succeeds, and lets Authentication and API errors propagate unchanged. -/
theorem C6_test_connection_advisory :
    (∀ msg, test_connection (Except.error (NautobotError.connection msg))
      = Except.ok false)
    ∧ (∀ v, test_connection (Except.ok v) = Except.ok true)
    ∧ (∀ msg, test_connection (Except.error (NautobotError.authentication msg))
      = Except.error (NautobotError.authentication msg))
    ∧ (∀ msg code, test_connection (Except.error (NautobotError.api msg code))
      = Except.error (NautobotError.api msg code)) :=
  ⟨fun _ => rfl, fun _ => rfl, fun _ => rfl, fun _ _ => rfl⟩

/-- C7: a JSON list response lacking a `results` key makes
`get_ip_addresses` and `get_prefixes` return an empty sequence rather than
an error. -/
theorem C7_missing_results_key (j : Json) (h : j.getField "results" = none)
    (address pfx status site role tenant vrf : Option String)
    (limit offset : Nat) :
    get_ip_addresses (fun _ => Except.ok j)
        address pfx status role tenant vrf limit offset = Except.ok []
    ∧ get_prefixes (fun _ => Except.ok j)
        pfx status site role tenant vrf limit offset = Except.ok [] := by
  constructor <;> simp [get_ip_addresses, get_prefixes, parseResults, h]

/-- Witness for C7: a paginated envelope with only a `count` field yields
empty sequences from both list operations. -/
theorem C7_missing_results_key_witness :
    get_ip_addresses (fun _ => Except.ok (Json.obj [("count", Json.num 0)]))
        none none none none none none 100 0 = Except.ok []
    ∧ get_prefixes (fun _ => Except.ok (Json.obj [("count", Json.num 0)]))
        none none none none none none 100 0 = Except.ok [] :=
  C7_missing_results_key (Json.obj [("count", Json.num 0)]) rfl
    none none none none none none none 100 0

/-- Flat characterization of membership in the IP-address query
parameters. -/
theorem mem_ipAddressParams_iff (key : String) (v : PVal)
    (address pfx status role tenant vrf : Option String) (limit offset : Nat) :
    ((key, v) ∈ ipAddressParams address pfx status role tenant vrf limit offset) ↔
      ((key = "limit" ∧ v = PVal.n limit)
       ∨ (key = "offset" ∧ v = PVal.n offset)
       ∨ (key = "address" ∧ ∃ s, address = some s ∧ v = PVal.s s)
       ∨ (key = "parent" ∧ ∃ s, pfx = some s ∧ v = PVal.s s)
       ∨ (key = "status" ∧ ∃ s, status = some s ∧ v = PVal.s s)
       ∨ (key = "role" ∧ ∃ s, role = some s ∧ v = PVal.s s)
       ∨ (key = "tenant" ∧ ∃ s, tenant = some s ∧ v = PVal.s s)
       ∨ (key = "vrf" ∧ ∃ s, vrf = some s ∧ v = PVal.s s)) := by
  simp only [ipAddressParams, List.mem_append, List.mem_cons,
    List.mem_singleton, List.not_mem_nil, mem_optParam_iff, Prod.mk.injEq,
    or_false, false_or, or_assoc]

/-- C1: on a list response mixing valid and invalid raw entries,
`get_ip_addresses` and `get_prefixes` return exactly the entries passing
mandatory-field validation, in the original order of the results array,
with length equal to the number of valid entries, and never error solely
because some entries were invalid. -/
theorem C1_tolerant_list_parsing (xs : List Json)
    (address pfx status site role tenant vrf : Option String)
    (limit offset : Nat) :
    (get_ip_addresses (fun _ => Except.ok (Json.obj [("results", Json.arr xs)]))
        address pfx status role tenant vrf limit offset
      = Except.ok (xs.filterMap IPAddress.fromJson?)
     ∧ xs.filterMap IPAddress.fromJson?
        = (xs.filter (fun j => hasMandatoryIPFields j)).filterMap IPAddress.fromJson?
     ∧ (xs.filterMap IPAddress.fromJson?).length
        = xs.countP (fun j => hasMandatoryIPFields j))
    ∧ (get_prefixes (fun _ => Except.ok (Json.obj [("results", Json.arr xs)]))
        pfx status site role tenant vrf limit offset
      = Except.ok (xs.filterMap Prefix.fromJson?)
     ∧ xs.filterMap Prefix.fromJson?
        = (xs.filter (fun j => hasMandatoryPrefixFields j)).filterMap Prefix.fromJson?
     ∧ (xs.filterMap Prefix.fromJson?).length
        = xs.countP (fun j => hasMandatoryPrefixFields j)) := by
  have hip : (fun j => (IPAddress.fromJson? j).isSome)
      = fun j => hasMandatoryIPFields j := funext isSome_ipFromJson
  have hpf : (fun j => (Prefix.fromJson? j).isSome)
      = fun j => hasMandatoryPrefixFields j := funext isSome_prefixFromJson
  refine ⟨⟨?_, ?_, ?_⟩, ⟨?_, ?_, ?_⟩⟩
  · simp [get_ip_addresses, parseResults, Json.getField, Json.getField.lookupField]
  · rw [filterMap_eq_filter_filterMap IPAddress.fromJson? xs, hip]
  · rw [length_filterMap_isSome, hip]
  · simp [get_prefixes, parseResults, Json.getField, Json.getField.lookupField]
  · rw [filterMap_eq_filter_filterMap Prefix.fromJson? xs, hpf]
  · rw [length_filterMap_isSome, hpf]

/-- C5: a null/unset filter argument never appears as a query parameter in
the request `get_ip_addresses` dispatches; a concrete filter value always
appears under the provider-mapped parameter name; in particular the
`prefix` filter is sent under the provider's `parent` key and never under
a literal `prefix` key; and the operation consults the dispatcher only at
exactly these parameters. -/
theorem C5_filter_parameter_mapping
    (address pfx status role tenant vrf : Option String) (limit offset : Nat) :
    (address = none → ∀ v,
      ("address", v) ∉ ipAddressParams address pfx status role tenant vrf limit offset)
    ∧ (pfx = none → ∀ v,
      ("parent", v) ∉ ipAddressParams address pfx status role tenant vrf limit offset)
    ∧ (status = none → ∀ v,
      ("status", v) ∉ ipAddressParams address pfx status role tenant vrf limit offset)
    ∧ (role = none → ∀ v,
      ("role", v) ∉ ipAddressParams address pfx status role tenant vrf limit offset)
    ∧ (tenant = none → ∀ v,
      ("tenant", v) ∉ ipAddressParams address pfx status role tenant vrf limit offset)
    ∧ (vrf = none → ∀ v,
      ("vrf", v) ∉ ipAddressParams address pfx status role tenant vrf limit offset)
    ∧ (∀ a, address = some a →
      ("address", PVal.s a) ∈ ipAddressParams address pfx status role tenant vrf limit offset)
    ∧ (∀ p, pfx = some p →
      ("parent", PVal.s p) ∈ ipAddressParams address pfx status role tenant vrf limit offset)
    ∧ (∀ s, status = some s →
      ("status", PVal.s s) ∈ ipAddressParams address pfx status role tenant vrf limit offset)
    ∧ (∀ r, role = some r →
      ("role", PVal.s r) ∈ ipAddressParams address pfx status role tenant vrf limit offset)
    ∧ (∀ t, tenant = some t →
      ("tenant", PVal.s t) ∈ ipAddressParams address pfx status role tenant vrf limit offset)
    ∧ (∀ w, vrf = some w →
      ("vrf", PVal.s w) ∈ ipAddressParams address pfx status role tenant vrf limit offset)
    ∧ (∀ v,
      ("prefix", v) ∉ ipAddressParams address pfx status role tenant vrf limit offset)
    ∧ (∀ dispatch dispatch' : Dispatch,
        dispatch (ipAddressParams address pfx status role tenant vrf limit offset)
          = dispatch' (ipAddressParams address pfx status role tenant vrf limit offset) →
        get_ip_addresses dispatch address pfx status role tenant vrf limit offset
          = get_ip_addresses dispatch' address pfx status role tenant vrf limit offset) := by
  refine ⟨?_, ?_, ?_, ?_, ?_, ?_, ?_, ?_, ?_, ?_, ?_, ?_, ?_, ?_⟩
  · rintro rfl v h
    rw [mem_ipAddressParams_iff] at h
    rcases h with h | h | h | h | h | h | h | h <;>
      first
        | exact absurd h.1 (by decide)
        | (rcases h.2 with ⟨s, hs, _⟩; exact Option.noConfusion hs)
  · rintro rfl v h
    rw [mem_ipAddressParams_iff] at h
    rcases h with h | h | h | h | h | h | h | h <;>
      first
        | exact absurd h.1 (by decide)
        | (rcases h.2 with ⟨s, hs, _⟩; exact Option.noConfusion hs)
  · rintro rfl v h
    rw [mem_ipAddressParams_iff] at h
    rcases h with h | h | h | h | h | h | h | h <;>
      first
        | exact absurd h.1 (by decide)
        | (rcases h.2 with ⟨s, hs, _⟩; exact Option.noConfusion hs)
  · rintro rfl v h
    rw [mem_ipAddressParams_iff] at h
    rcases h with h | h | h | h | h | h | h | h <;>
      first
        | exact absurd h.1 (by decide)
        | (rcases h.2 with ⟨s, hs, _⟩; exact Option.noConfusion hs)
  · rintro rfl v h
    rw [mem_ipAddressParams_iff] at h
    rcases h with h | h | h | h | h | h | h | h <;>
      first
        | exact absurd h.1 (by decide)
        | (rcases h.2 with ⟨s, hs, _⟩; exact Option.noConfusion hs)
  · rintro rfl v h
    rw [mem_ipAddressParams_iff] at h
    rcases h with h | h | h | h | h | h | h | h <;>
      first
        | exact absurd h.1 (by decide)
        | (rcases h.2 with ⟨s, hs, _⟩; exact Option.noConfusion hs)
  · rintro a rfl
    rw [mem_ipAddressParams_iff]
    exact Or.inr (Or.inr (Or.inl ⟨rfl, a, rfl, rfl⟩))
  · rintro p rfl
    rw [mem_ipAddressParams_iff]
    exact Or.inr (Or.inr (Or.inr (Or.inl ⟨rfl, p, rfl, rfl⟩)))
  · rintro s rfl
    rw [mem_ipAddressParams_iff]
    exact Or.inr (Or.inr (Or.inr (Or.inr (Or.inl ⟨rfl, s, rfl, rfl⟩))))
  · rintro r rfl
    rw [mem_ipAddressParams_iff]
    exact Or.inr (Or.inr (Or.inr (Or.inr (Or.inr (Or.inl ⟨rfl, r, rfl, rfl⟩)))))
  · rintro t rfl
    rw [mem_ipAddressParams_iff]
    exact Or.inr (Or.inr (Or.inr (Or.inr (Or.inr (Or.inr
      (Or.inl ⟨rfl, t, rfl, rfl⟩))))))
  · rintro w rfl
    rw [mem_ipAddressParams_iff]
    exact Or.inr (Or.inr (Or.inr (Or.inr (Or.inr (Or.inr
      (Or.inr ⟨rfl, w, rfl, rfl⟩))))))
  · intro v h
    rw [mem_ipAddressParams_iff] at h
    rcases h with h | h | h | h | h | h | h | h <;>
      exact absurd h.1 (by decide)
  · intro dispatch dispatch' h
    simp [get_ip_addresses, h]

/-- Witness for C5: with only a prefix filter set, the dispatched request
carries the value under `parent`, no `prefix` key, and no `status` key. -/
theorem C5_filter_parameter_mapping_witness :
    ("parent", PVal.s "192.168.1.0/24")
      ∈ ipAddressParams none (some "192.168.1.0/24") none none none none 50 10
    ∧ (("prefix", PVal.s "192.168.1.0/24")
      ∉ ipAddressParams none (some "192.168.1.0/24") none none none none 50 10)
    ∧ (("status", PVal.s "active")
      ∉ ipAddressParams none (some "192.168.1.0/24") none none none none 50 10) :=
  ⟨(C5_filter_parameter_mapping none (some "192.168.1.0/24") none none none none
      50 10).2.2.2.2.2.2.2.1 "192.168.1.0/24" rfl,
   (C5_filter_parameter_mapping none (some "192.168.1.0/24") none none none none
      50 10).2.2.2.2.2.2.2.2.2.2.2.2.1 (PVal.s "192.168.1.0/24"),
   (C5_filter_parameter_mapping none (some "192.168.1.0/24") none none none none
      50 10).2.2.1 rfl (PVal.s "active")⟩

/-- Every tool branch either propagates an exception or returns exactly
one text content block. -/
theorem runToolRequest_shape (ops : ClientOps) (req : ToolRequest) :
    (∃ e, runToolRequest ops req = Except.error e)
    ∨ (∃ t, runToolRequest ops req = Except.ok [t]) := by
  cases req with
  | getIPs a p s r t w l o =>
      cases h : ops.get_ip_addresses a p s r t w l o with
      | error e => exact Or.inl ⟨e, by simp [runToolRequest, h]⟩
      | ok ips =>
          exact Or.inr ⟨⟨"Retrieved " ++ toString ips.length ++
            " IP addresses from Nautobot:\n\n```json\n" ++
            renderIPList ips ++ "\n```"⟩, by simp [runToolRequest, h]⟩
  | getPrefixes p s si r t w l o =>
      cases h : ops.get_prefixes p s si r t w l o with
      | error e => exact Or.inl ⟨e, by simp [runToolRequest, h]⟩
      | ok ps =>
          exact Or.inr ⟨⟨"Retrieved " ++ toString ps.length ++
            " network prefixes from Nautobot:\n\n```json\n" ++
            renderPrefixList ps ++ "\n```"⟩, by simp [runToolRequest, h]⟩
  | getById i =>
      cases h : ops.get_ip_address_by_id i with
      | error e => exact Or.inl ⟨e, by simp [runToolRequest, h]⟩
      | ok o =>
          cases o with
          | none =>
              exact Or.inr ⟨⟨"IP address with ID " ++ i ++
                " not found in Nautobot."⟩, by simp [runToolRequest, h]⟩
          | some ip =>
              exact Or.inr ⟨⟨"Retrieved IP address from Nautobot:\n\n```json\n" ++
                renderIPList [ip] ++ "\n```"⟩, by simp [runToolRequest, h]⟩
  | search q l =>
      cases h : ops.search_ip_addresses q l with
      | error e => exact Or.inl ⟨e, by simp [runToolRequest, h]⟩
      | ok ips =>
          exact Or.inr ⟨⟨"Found " ++ toString ips.length ++
            " IP addresses matching " ++ q ++ ":\n\n```json\n" ++
            renderIPList ips ++ "\n```"⟩, by simp [runToolRequest, h]⟩
  | testConn =>
      cases h : ops.test_connection () with
      | error e => exact Or.inl ⟨e, by simp [runToolRequest, h]⟩
      | ok b =>
          exact Or.inr ⟨⟨"Nautobot API Connection Test: " ++
            (if b then "✅ Connected" else "❌ Connection Failed")⟩,
            by simp [runToolRequest, h]⟩

/-- A name outside the five registered tools parses to the unknown-tool
`ValueError`. -/
theorem parseToolRequest_unknown (name : String) (args : Args)
    (h : name ∉ knownTools) :
    parseToolRequest name args
      = Except.error (PyExc.valueError ("Unknown tool: " ++ name)) := by
  simp only [knownTools, List.mem_cons, List.not_mem_nil, or_false, not_or] at h
  obtain ⟨h1, h2, h3, h4, h5⟩ := h
  simp [parseToolRequest, h1, h2, h3, h4, h5]

/-- C8: `handle_call_tool` never lets an exception escape: a failure
obtaining the client, an argument-validation or unknown-tool
`ValueError`, and every exception raised by the delegated client call are
all converted into a returned single-element error content list; every
call returns exactly one content block. -/
theorem C8_handle_call_tool_never_raises
    (clientResult : Except PyExc ClientOps) (name : String) (args : Args) :
    (∃ t, handle_call_tool clientResult name args = [t])
    ∧ (∀ e, clientResult = Except.error e →
        handle_call_tool clientResult name args = [toolErrorContent e])
    ∧ (∀ ops e, clientResult = Except.ok ops →
        parseToolRequest name args = Except.error e →
        handle_call_tool clientResult name args = [toolErrorContent e])
    ∧ (∀ ops req e, clientResult = Except.ok ops →
        parseToolRequest name args = Except.ok req →
        runToolRequest ops req = Except.error e →
        handle_call_tool clientResult name args = [toolErrorContent e])
    ∧ (∀ ops, clientResult = Except.ok ops → name ∉ knownTools →
        handle_call_tool clientResult name args
          = [toolErrorContent (PyExc.valueError ("Unknown tool: " ++ name))]) := by
  refine ⟨?_, ?_, ?_, ?_, ?_⟩
  · cases clientResult with
    | error e =>
        exact ⟨toolErrorContent e,
          by simp [handle_call_tool, Bind.bind, Except.bind]⟩
    | ok ops =>
        cases hp : parseToolRequest name args with
        | error e =>
            exact ⟨toolErrorContent e,
              by simp [handle_call_tool, Bind.bind, Except.bind, hp]⟩
        | ok req =>
            rcases runToolRequest_shape ops req with ⟨e, hr⟩ | ⟨t, hr⟩
            · exact ⟨toolErrorContent e,
                by simp [handle_call_tool, Bind.bind, Except.bind, hp, hr]⟩
            · exact ⟨t,
                by simp [handle_call_tool, Bind.bind, Except.bind, hp, hr]⟩
  · rintro e rfl
    simp [handle_call_tool, Bind.bind, Except.bind]
  · rintro ops e rfl hp
    simp [handle_call_tool, Bind.bind, Except.bind, hp]
  · rintro ops req e rfl hp hr
    simp [handle_call_tool, Bind.bind, Except.bind, hp, hr]
  · rintro ops rfl hn
    simp [handle_call_tool, Bind.bind, Except.bind,
      parseToolRequest_unknown name args hn]

/-- Witness for C8: an unknown tool name and a failed client acquisition
both come back as single-element error content lists. -/
theorem C8_handle_call_tool_never_raises_witness :
    handle_call_tool (Except.ok sampleOps) "delete_everything" []
      = [toolErrorContent (PyExc.valueError "Unknown tool: delete_everything")]
    ∧ handle_call_tool (Except.error (PyExc.otherExc "boom")) "test_connection" []
      = [toolErrorContent (PyExc.otherExc "boom")] :=
  ⟨(C8_handle_call_tool_never_raises (Except.ok sampleOps)
      "delete_everything" []).2.2.2.2 sampleOps rfl (by decide),
   (C8_handle_call_tool_never_raises (Except.error (PyExc.otherExc "boom"))
      "test_connection" []).2.1 (PyExc.otherExc "boom") rfl⟩

/-- C9: the caller-supplied limit is capped before delegation — effective
limit `min(limit, 1000)` with default 100 for the two list tools,
`min(limit, 500)` with default 50 for search; an over-cap limit is
silently reduced, never rejected. -/
theorem C9_limit_capping (args : Args) :
    (∃ r, parseToolRequest "get_ip_addresses" args = Except.ok r
       ∧ r.reqLimit = some (min (args.getNatD "limit" 100) 1000))
    ∧ (∃ r, parseToolRequest "get_prefixes" args = Except.ok r
       ∧ r.reqLimit = some (min (args.getNatD "limit" 100) 1000))
    ∧ (∀ q, args.getStr "query" = some q → q ≠ "" →
        ∃ r, parseToolRequest "search_ip_addresses" args = Except.ok r
          ∧ r.reqLimit = some (min (args.getNatD "limit" 50) 500))
    ∧ (1000 ≤ args.getNatD "limit" 100 →
        ∃ r, parseToolRequest "get_ip_addresses" args = Except.ok r
          ∧ r.reqLimit = some 1000)
    ∧ (∀ q, 500 ≤ args.getNatD "limit" 50 →
        args.getStr "query" = some q → q ≠ "" →
        ∃ r, parseToolRequest "search_ip_addresses" args = Except.ok r
          ∧ r.reqLimit = some 500) := by
  refine ⟨⟨ToolRequest.getIPs (args.getStr "address") (args.getStr "prefix")
      (args.getStr "status") (args.getStr "role") (args.getStr "tenant")
      (args.getStr "vrf") (min (args.getNatD "limit" 100) 1000)
      (args.getNatD "offset" 0), ?_, rfl⟩,
    ⟨ToolRequest.getPrefixes (args.getStr "prefix") (args.getStr "status")
      (args.getStr "site") (args.getStr "role") (args.getStr "tenant")
      (args.getStr "vrf") (min (args.getNatD "limit" 100) 1000)
      (args.getNatD "offset" 0), ?_, rfl⟩,
    fun q hq hne =>
      ⟨ToolRequest.search q (min (args.getNatD "limit" 50) 500), ?_, rfl⟩,
    fun hcap =>
      ⟨ToolRequest.getIPs (args.getStr "address") (args.getStr "prefix")
        (args.getStr "status") (args.getStr "role") (args.getStr "tenant")
        (args.getStr "vrf") (min (args.getNatD "limit" 100) 1000)
        (args.getNatD "offset" 0), ?_, ?_⟩,
    fun q hcap hq hne =>
      ⟨ToolRequest.search q (min (args.getNatD "limit" 50) 500), ?_, ?_⟩⟩
  · simp [parseToolRequest]
  · simp [parseToolRequest]
  · simp [parseToolRequest, hq, hne]
  · simp [parseToolRequest]
  · simp [ToolRequest.reqLimit, Nat.min_eq_right hcap]
  · simp [parseToolRequest, hq, hne]
  · simp [ToolRequest.reqLimit, Nat.min_eq_right hcap]

/-- Witness for C9: a limit of 5000 is capped to 1000 for the list tools
and to 500 for search; a missing limit defaults to 100 and 50. -/
theorem C9_limit_capping_witness :
    (∃ r, parseToolRequest "get_ip_addresses" [("limit", ArgVal.n 5000)]
      = Except.ok r ∧ r.reqLimit = some 1000)
    ∧ (∃ r, parseToolRequest "search_ip_addresses"
        [("query", ArgVal.s "192"), ("limit", ArgVal.n 5000)]
      = Except.ok r ∧ r.reqLimit = some 500)
    ∧ (∃ r, parseToolRequest "get_ip_addresses" []
      = Except.ok r ∧ r.reqLimit = some 100)
    ∧ (∃ r, parseToolRequest "search_ip_addresses" [("query", ArgVal.s "192")]
      = Except.ok r ∧ r.reqLimit = some 50) :=
  ⟨(C9_limit_capping [("limit", ArgVal.n 5000)]).2.2.2.1 (by decide),
   (C9_limit_capping [("query", ArgVal.s "192"), ("limit", ArgVal.n 5000)]).2.2.2.2
      "192" (by decide) rfl (by decide),
   (C9_limit_capping []).1,
   (C9_limit_capping [("query", ArgVal.s "192")]).2.2.1 "192" rfl (by decide)⟩

/-- C10: the client is constructed at most once per process — once the
module-level global is set, every later call returns that same instance
without consulting the environment; and when the first call's probe
returns `false` the call raises while the global keeps the constructed
instance, so a later call returns that cached instance without raising. -/
theorem C10_client_singleton (env env2 : InitEnv) (c : Client) :
    (get_nautobot_client env (some c) = (Except.ok c, some c))
    ∧ (env.validationFailure = none → env.testResult = Except.ok false →
        (∃ e, get_nautobot_client env none = (Except.error e, some env.client))
        ∧ get_nautobot_client env2 (some env.client)
            = (Except.ok env.client, some env.client)) := by
  refine ⟨rfl, fun h1 h2 =>
    ⟨⟨PyExc.nautobotBase
        "Failed to initialize Nautobot client: Failed to connect to Nautobot API",
      ?_⟩, rfl⟩⟩
  simp [get_nautobot_client, h1, h2]

/-- Witness for C10: with a failing first probe, the first call raises,
the global keeps instance 7, and the second call returns it. -/
theorem C10_client_singleton_witness :
    get_nautobot_client ⟨none, 7, Except.ok false⟩ (some 3)
      = (Except.ok 3, some 3)
    ∧ (∃ e, get_nautobot_client ⟨none, 7, Except.ok false⟩ none
      = (Except.error e, some 7))
    ∧ get_nautobot_client ⟨none, 7, Except.ok false⟩ (some 7)
      = (Except.ok 7, some 7) :=
  ⟨(C10_client_singleton ⟨none, 7, Except.ok false⟩
      ⟨none, 7, Except.ok false⟩ 3).1,
   ((C10_client_singleton ⟨none, 7, Except.ok false⟩
      ⟨none, 7, Except.ok false⟩ 0).2 rfl rfl).1,
   ((C10_client_singleton ⟨none, 7, Except.ok false⟩
      ⟨none, 7, Except.ok false⟩ 0).2 rfl rfl).2⟩

/-- Pruning the request list at a fixed instant is idempotent. -/
theorem liveRequests_idem (window u : Nat) (xs : List Nat) :
    liveRequests window u (liveRequests window u xs)
      = liveRequests window u xs := by
  apply List.filter_eq_self.mpr
  intro a ha
  exact (List.mem_filter.mp ha).2

/-- Pruning distributes over list concatenation. -/
theorem liveRequests_append (window u : Nat) (xs ys : List Nat) :
    liveRequests window u (xs ++ ys)
      = liveRequests window u xs ++ liveRequests window u ys := by
  unfold liveRequests
  exact List.filter_append _ _

/-- Pruning never lengthens the request list. -/
theorem liveRequests_length_le (window u : Nat) (xs : List Nat) :
    (liveRequests window u xs).length ≤ xs.length :=
  List.Sublist.length_le (List.filter_sublist xs)

/-- With a positive window, a list of timestamps equal to the current
instant survives pruning whole. -/
theorem liveRequests_replicate_now (window t n : Nat) (hT : 0 < window) :
    liveRequests window t (List.replicate n t) = List.replicate n t := by
  apply List.filter_eq_self.mpr
  intro a ha
  rcases List.eq_of_mem_replicate ha with rfl
  simp only [decide_eq_true_eq]
  omega

/-- `acquire` below capacity: no wait, the current instant is recorded
after the pruned list. -/
theorem acquire_eq_of_lt (N T : Nat) (reqs : List Nat) (t : Nat)
    (h : (liveRequests T t reqs).length < N) :
    RateLimiter.acquire ⟨N, T, reqs⟩ t
      = (0, ⟨N, T, liveRequests T t reqs ++ [t]⟩) := by
  simp only [RateLimiter.acquire]
  rw [if_pos h]

/-- `acquire` at capacity: wait until the oldest surviving timestamp ages
out, then record the post-wait instant. -/
theorem acquire_eq_of_ge (N T : Nat) (reqs : List Nat) (t oldest : Nat)
    (tail : List Nat)
    (h : ¬ (liveRequests T t reqs).length < N)
    (hl : liveRequests T t reqs = oldest :: tail) :
    RateLimiter.acquire ⟨N, T, reqs⟩ t
      = (oldest + T - t,
         ⟨N, T, liveRequests T (oldest + T) (oldest :: tail) ++ [oldest + T]⟩) := by
  simp only [RateLimiter.acquire]
  rw [if_neg h, hl]
  rfl

/-- One `acquire` keeps the sliding-window count at or below the
configured maximum. -/
theorem acquire_preserves_liveCount (N T : Nat) (hN : 0 < N)
    (reqs : List Nat) (t : Nat)
    (hinv : RateLimiter.liveCount ⟨N, T, reqs⟩ t ≤ N) :
    RateLimiter.liveCount (RateLimiter.acquire ⟨N, T, reqs⟩ t).2
      (t + (RateLimiter.acquire ⟨N, T, reqs⟩ t).1) ≤ N := by
  simp only [RateLimiter.liveCount] at hinv
  by_cases hlt : (liveRequests T t reqs).length < N
  · rw [acquire_eq_of_lt N T reqs t hlt]
    simp only [RateLimiter.liveCount, Nat.add_zero]
    rw [liveRequests_append, liveRequests_idem, List.length_append]
    have h1 : (liveRequests T t [t]).length ≤ 1 := liveRequests_length_le T t [t]
    omega
  · have hne : liveRequests T t reqs ≠ [] := by
      intro hemp
      rw [hemp] at hlt
      simp only [List.length_nil] at hlt
      omega
    obtain ⟨oldest, tail, htail⟩ : ∃ a l, liveRequests T t reqs = a :: l := by
      cases hll : liveRequests T t reqs with
      | nil => exact absurd hll hne
      | cons a l => exact ⟨a, l, rfl⟩
    rw [acquire_eq_of_ge N T reqs t oldest tail hlt htail]
    simp only [RateLimiter.liveCount]
    have holdest : t < oldest + T := by
      have hmem : oldest ∈ liveRequests T t reqs := by
        rw [htail]
        exact List.mem_cons_self _ _
      have := (List.mem_filter.mp hmem).2
      simpa using this
    have hwake : t + (oldest + T - t) = oldest + T := by omega
    rw [hwake, liveRequests_append, liveRequests_idem, List.length_append]
    have hdrop : liveRequests T (oldest + T) (oldest :: tail)
        = liveRequests T (oldest + T) tail := by
      unfold liveRequests
      rw [List.filter_cons_of_neg]
      simp
    have hlen2 : (liveRequests T (oldest + T) tail).length ≤ tail.length :=
      liveRequests_length_le T (oldest + T) tail
    have hone : (liveRequests T (oldest + T) [oldest + T]).length ≤ 1 :=
      liveRequests_length_le T (oldest + T) [oldest + T]
    have hlen : (liveRequests T t reqs).length ≤ N := hinv
    rw [htail] at hlen
    simp only [List.length_cons] at hlen
    rw [hdrop]
    omega

/-- The sliding-window count only shrinks as time passes without new
acquisitions. -/
theorem liveCount_antitone (N T : Nat) (reqs : List Nat) (t t' : Nat)
    (h : t ≤ t') :
    RateLimiter.liveCount ⟨N, T, reqs⟩ t'
      ≤ RateLimiter.liveCount ⟨N, T, reqs⟩ t := by
  simp only [RateLimiter.liveCount]
  unfold liveRequests
  rw [← List.countP_eq_length_filter, ← List.countP_eq_length_filter]
  apply List.countP_mono_left
  intro x _ hx
  simp only [decide_eq_true_eq] at hx ⊢
  omega

/-- Starting from an empty limiter, each of the first `N` back-to-back
acquisitions completes with zero wait, stacking timestamps at the same
instant. -/
theorem acquireBurst_fill (N T now : Nat) (hT : 0 < T) :
    ∀ (j i : Nat), i + j ≤ N →
      acquireBurst ⟨N, T, List.replicate i now⟩ now j
        = (List.replicate j 0, ⟨N, T, List.replicate (i + j) now⟩) := by
  intro j
  induction j with
  | zero => intro i h; simp [acquireBurst]
  | succ k ih =>
      intro i h
      have hlive := liveRequests_replicate_now T now i hT
      have hlen : (liveRequests T now (List.replicate i now)).length < N := by
        rw [hlive, List.length_replicate]
        omega
      have hstep : RateLimiter.acquire ⟨N, T, List.replicate i now⟩ now
          = (0, ⟨N, T, List.replicate (i + 1) now⟩) := by
        rw [acquire_eq_of_lt N T (List.replicate i now) now hlen, hlive,
          ← List.replicate_succ']
      simp only [acquireBurst, hstep, Nat.add_zero]
      rw [ih (i + 1) (by omega)]
      have harith : i + 1 + k = i + (k + 1) := by omega
      rw [harith, List.replicate_succ]

/-- Starting from an empty limiter, the `(N+1)`-th back-to-back
acquisition waits exactly one window length — until the oldest timestamp
(recorded at `now`) exits the window — and records the post-wait instant
`now + T`. -/
theorem acquireBurst_over (N T now : Nat) (hN : 0 < N) (hT : 0 < T) :
    acquireBurst ⟨N, T, ([] : List Nat)⟩ now (N + 1)
      = (List.replicate N 0 ++ [T], ⟨N, T, [now + T]⟩) := by
  suffices hgen : ∀ (j i : Nat), i ≤ N → i + j = N + 1 →
      acquireBurst ⟨N, T, List.replicate i now⟩ now j
        = (List.replicate (N - i) 0 ++ [T], ⟨N, T, [now + T]⟩) by
    have := hgen (N + 1) 0 (by omega) (by omega)
    simpa using this
  intro j
  induction j with
  | zero => intro i h1 h2; omega
  | succ k ih =>
      intro i h1 h2
      by_cases hi : i < N
      · have hlive := liveRequests_replicate_now T now i hT
        have hlen : (liveRequests T now (List.replicate i now)).length < N := by
          rw [hlive, List.length_replicate]
          omega
        have hstep : RateLimiter.acquire ⟨N, T, List.replicate i now⟩ now
            = (0, ⟨N, T, List.replicate (i + 1) now⟩) := by
          rw [acquire_eq_of_lt N T (List.replicate i now) now hlen, hlive,
            ← List.replicate_succ']
        simp only [acquireBurst, hstep, Nat.add_zero]
        rw [ih (i + 1) (by omega) (by omega)]
        have hrep : List.replicate (N - i) 0
            = 0 :: List.replicate (N - (i + 1)) 0 := by
          have harith : N - i = (N - (i + 1)) + 1 := by omega
          rw [harith, List.replicate_succ]
        rw [hrep]
        rfl
      · have hk : k = 0 := by omega
        subst hk
        have hieq : i = N := by omega
        rw [hieq]
        have hlive := liveRequests_replicate_now T now N hT
        have hlen : ¬ (liveRequests T now (List.replicate N now)).length < N := by
          rw [hlive, List.length_replicate]
          omega
        obtain ⟨m, hm⟩ : ∃ m, N = m + 1 := ⟨N - 1, by omega⟩
        have htail : liveRequests T now (List.replicate N now)
            = now :: List.replicate m now := by
          rw [hlive, hm, List.replicate_succ]
        have hstep := acquire_eq_of_ge N T (List.replicate N now) now now
          (List.replicate m now) hlen htail
        have hlive2 : liveRequests T (now + T) (now :: List.replicate m now)
            = [] := by
          unfold liveRequests
          apply List.filter_eq_nil_iff.mpr
          intro a ha
          have ha' : a = now := by
            rcases List.mem_cons.mp ha with h | h
            · exact h
            · exact List.eq_of_mem_replicate h
          subst ha'
          simp
        rw [hlive2] at hstep
        have hw : now + T - now = T := by omega
        rw [hw] at hstep
        simp only [acquireBurst, hstep, List.nil_append]
        have hz : N - N = 0 := by omega
        rw [hz]
        rfl


/-- C2: for a limiter with maximum `N` and window `T`, one acquisition
never pushes the sliding-window count above `N` (and the count only
shrinks as time passes); from an empty limiter, every `k ≤ N` back-to-back
`acquire` calls complete without suspension, and the `(N+1)`-th suspends
for exactly `T` — until the oldest recorded timestamp exits the window —
recording its own timestamp only after the wait, at `now + T`. -/
theorem C2_sliding_window_rate_limiter (N T now : Nat) (hN : 0 < N) (hT : 0 < T) :
    (∀ (reqs : List Nat) (t : Nat),
      RateLimiter.liveCount ⟨N, T, reqs⟩ t ≤ N →
        RateLimiter.liveCount (RateLimiter.acquire ⟨N, T, reqs⟩ t).2
          (t + (RateLimiter.acquire ⟨N, T, reqs⟩ t).1) ≤ N)
    ∧ (∀ (reqs : List Nat) (t t' : Nat), t ≤ t' →
        RateLimiter.liveCount ⟨N, T, reqs⟩ t'
          ≤ RateLimiter.liveCount ⟨N, T, reqs⟩ t)
    ∧ (∀ k, k ≤ N →
        (acquireBurst ⟨N, T, []⟩ now k).1 = List.replicate k 0)
    ∧ ((acquireBurst ⟨N, T, []⟩ now (N + 1)).1 = List.replicate N 0 ++ [T]
       ∧ (acquireBurst ⟨N, T, []⟩ now (N + 1)).2.requests = [now + T]) := by
  refine ⟨fun reqs t hinv => acquire_preserves_liveCount N T hN reqs t hinv,
    fun reqs t t' h => liveCount_antitone N T reqs t t' h,
    fun k hk => ?_, ?_, ?_⟩
  · have := acquireBurst_fill N T now hT k 0 (by omega)
    simpa using congrArg Prod.fst this
  · rw [acquireBurst_over N T now hN hT]
  · rw [acquireBurst_over N T now hN hT]

/-- Witness for C2: with maximum 2 and window 1, two back-to-back
acquisitions wait 0, the third waits 1 and records timestamp 1. -/
theorem C2_sliding_window_rate_limiter_witness :
    (acquireBurst ⟨2, 1, []⟩ 0 2).1 = List.replicate 2 0
    ∧ (acquireBurst ⟨2, 1, []⟩ 0 3).1 = List.replicate 2 0 ++ [1]
    ∧ (acquireBurst ⟨2, 1, []⟩ 0 3).2.requests = [1] :=
  ⟨(C2_sliding_window_rate_limiter 2 1 0 (by decide) (by decide)).2.2.1 2
      (by decide),
   (C2_sliding_window_rate_limiter 2 1 0 (by decide) (by decide)).2.2.2.1,
   (C2_sliding_window_rate_limiter 2 1 0 (by decide) (by decide)).2.2.2.2⟩

end McpNautobot
